import Mathlib

/-!
Shallow embedding of the deno core isolate driver (src/core/isolate.rs).

The V8 engine, the JS side of the bindings and the async runtime are external
collaborators; their only surfaces used here are modelled as parameters
(`enc` for exception-message-to-JSON serialization, `errCreate` for the
host error constructor, `JsSide` for the behavior of the JS receive
callback).  Machine integers (`u32` op ids, byte buffers) are modelled as
`Nat` / `List Nat`; fallible or panicking paths return `Option` / `Except`.
`FuturesUnordered` is modelled as a list of per-poll-pass future states:
each in-flight op either resolves in this pass with its payload
(`PendingOp.ready`) or stays pending (`PendingOp.notReady`);
`poll_next` yields the first resolved future, in completion order.
-/

/-- Op ids are `u32` in the source (`OpId`); decimal formatting agrees with
`Nat`. -/
abbrev OpId := Nat

/-- An owned byte buffer (`Box<[u8]>` / `Buf` in the source). -/
abbrev Buf := List Nat

/-- An engine snapshot blob (`v8::OwnedStartupData`), treated as opaque
pass-through bytes. -/
abbrev Blob := List Nat

/-- Errors crossing the native boundary (`ErrBox`); only their identity
matters, so they are carried as strings. -/
abbrev ErrBox := String

/-- A JS value as far as the exception paths inspect it: the code only asks
`is_null_or_undefined()` and otherwise hands the value to the engine message
API, so a value is either null-or-undefined or an opaque payload. -/
inductive JSValue where
  | nullOrUndefined
  | val (s : String)
deriving DecidableEq, Repr

/-- A startup script (`Script` / `OwnedScript` in the source). -/
structure ScriptRec where
  filename : String
  source : String
deriving DecidableEq, Repr

/-- One in-flight async op future (an element of `pending_ops` or
`pending_unref_ops`, already mapped by `fut.map_ok(move |buf| (op_id, buf))`):
in a given poll pass it is either ready with its `(op_id, payload)` record or
not ready. -/
inductive PendingOp where
  | ready (opId : OpId) (buf : Buf)
  | notReady
deriving DecidableEq, Repr

/-- The op result model (`Op` in ops.rs): `Sync` carries the payload; the
async variants carry a future of the payload, modelled by its status at the
next poll pass. -/
inductive CoreOp where
  | sync (buf : Buf)
  | async (fut : Option Buf)
  | asyncUnref (fut : Option Buf)
deriving DecidableEq, Repr

/-- An exception thrown back into JS at the dispatch call site
(`scope.isolate().throw_exception(...)`). -/
inductive Thrown where
  | typeError (msg : String)
deriving DecidableEq, Repr

/-- Calls made on the engine termination control while handling a caught
exception (`cancel_terminate_execution` / `terminate_execution`). -/
inductive TermAction where
  | cancelTerminate
  | reenableTerminate
deriving DecidableEq, Repr

/-- Round `n` up to the next multiple of 4 (record padding of the shared
queue wire layout). -/
def align4 (n : Nat) : Nat := 4 * ((n + 3) / 4)

/-- Modelled from the spec: the shared queue (shared_queue.rs is not among
the given sources).  Per spec section 4.2 it is a bounded ring of
`(op_id, payload)` records; `maxRecords` and `capacity` (record-area bytes)
are its configuration, `records` the unconsumed records in push order. -/
structure SharedQueue where
  maxRecords : Nat
  capacity : Nat
  records : List (OpId × Buf)
deriving DecidableEq, Repr

/-- Modelled from the spec: `HEAD`, the end-of-data byte offset — each
record occupies `4 + align4 (payload length)` bytes. -/
def SharedQueue.head (q : SharedQueue) : Nat :=
  (q.records.map (fun r => 4 + align4 r.2.length)).sum

/-- Modelled from the spec: `size()` — the count of unconsumed records. -/
def SharedQueue.size (q : SharedQueue) : Nat := q.records.length

/-- Modelled from the spec: `push(op_id, bytes) → bool` — succeeds only if
`NUM_RECORDS < MAX_RECORDS` and `HEAD + L ≤ capacity`; on failure the queue
is unchanged. -/
def SharedQueue.push (q : SharedQueue) (opId : OpId) (buf : Buf) :
    Bool × SharedQueue :=
  if q.records.length < q.maxRecords ∧
      q.head + (4 + align4 buf.length) ≤ q.capacity then
    (true, { q with records := q.records ++ [(opId, buf)] })
  else
    (false, q)

/-- Modelled from the spec: `reset` — empties the queue. -/
def SharedQueue.reset (q : SharedQueue) : SharedQueue := { q with records := [] }

/-- Modelled from the spec: queue constants — the default buffer is 2 MiB
(`RECOMMENDED_SIZE`); `MAX_RECORDS` is a configurable constant. -/
def RECOMMENDED_SIZE : Nat := 2 * 1024 * 1024

/-- Modelled from the spec: the maximum record count of the queue. -/
def MAX_RECORDS : Nat := 100

/-- Modelled from the spec: `SharedQueue::new(len)` — an empty queue over a
buffer of `len` bytes. -/
def SharedQueue.new (len : Nat) : SharedQueue :=
  { maxRecords := MAX_RECORDS, capacity := len, records := [] }

/-- Modelled from the spec: the op registry (ops.rs is not among the given
sources).  Handlers are stored in registration order; ids are assigned from 1
(id 0 is reserved). -/
structure OpRegistry where
  handlers : List (String × (Buf → Option Buf → CoreOp))

/-- Modelled from the spec: `OpRegistry::call(id, control, zero_copy)` —
looks up the handler by id and invokes it; absent handler yields nothing. -/
def OpRegistry.call (r : OpRegistry) (opId : OpId) (control : Buf)
    (zeroCopy : Option Buf) : Option CoreOp :=
  if opId = 0 then none
  else (r.handlers.get? (opId - 1)).map (fun h => h.2 control zeroCopy)

/-- The mutable isolate driver state (`IsolateInner`).  Engine handles that
the claims never inspect structurally are reduced to the bits the code reads:
`global_context` records whether the global context handle is set,
`terminating` models `is_execution_terminating()` on the thread-safe handle,
`executed` logs the scripts run through `execute` (whose JS effects are
external).  `loaded_snapshot` is the startup blob handed to the engine. -/
structure IsolateState where
  last_exception : Option String
  pending_promise_exceptions : List (Int × JSValue)
  needs_init : Bool
  shared : SharedQueue
  pending_ops : List PendingOp
  pending_unref_ops : List PendingOp
  have_unpolled_ops : Bool
  startup_script : Option ScriptRec
  snapshot_creator : Bool
  has_snapshotted : Bool
  loaded_snapshot : Option Blob
  global_context : Bool
  terminating : Bool
  executed : List ScriptRec
deriving DecidableEq, Repr

/-- Modelled from the spec: the identity of the built-in bootstrap script
(`include_str!("shared_queue.js")` — its JS content is external). -/
def shared_queue_js : ScriptRec :=
  { filename := "shared_queue.js", source := "<bootstrap source>" }

/-- `Isolate::shared_init` (isolate.rs lines 454-467): latched one-shot
initialization — on first call clear `needs_init`, run the bootstrap script,
then run and consume the startup script if present.  `execute` is modelled
by its log entry; its JS side effects are external. -/
def Isolate.shared_init (st : IsolateState) : IsolateState :=
  if st.needs_init then
    let st1 := { st with needs_init := false }
    let st2 := { st1 with executed := st1.executed ++ [shared_queue_js] }
    match st2.startup_script with
    | some s => { st2 with startup_script := none, executed := st2.executed ++ [s] }
    | none => st2
  else st

/-- `Isolate::handle_exception` (isolate.rs lines 375-411): if a terminate
request is in flight, cancel it, replace a null-or-undefined exception by a
synthetic "execution terminated" error, then after stashing re-enable
termination; serialize the exception message via the engine (`enc`) and
stash it as `last_exception`.  The returned list records the calls made on
the termination control. -/
def Isolate.handle_exception (enc : JSValue → String) (st : IsolateState)
    (exception : JSValue) : IsolateState × List TermAction :=
  let is_terminating_exception := st.terminating
  if is_terminating_exception then
    let st1 := { st with terminating := false }
    let exception1 :=
      if exception = JSValue.nullOrUndefined then
        JSValue.val "execution terminated"
      else exception
    let st2 := { st1 with last_exception := some (enc exception1) }
    let st3 := { st2 with terminating := true }
    (st3, [TermAction.cancelTerminate, TermAction.reenableTerminate])
  else
    ({ st with last_exception := some (enc exception) }, [])

/-- `Isolate::check_last_exception` (isolate.rs lines 559-570): take the
stashed serialized exception, if any, and turn it into a host error through
the error-create hook (`errCreate` models `V8Exception::from_json` composed
with `js_error_create`). -/
def Isolate.check_last_exception (errCreate : String → ErrBox)
    (st : IsolateState) : Except ErrBox Unit × IsolateState :=
  match st.last_exception with
  | none => (Except.ok (), st)
  | some json_str =>
      (Except.error (errCreate json_str), { st with last_exception := none })

/-- `Isolate::check_promise_exceptions` (isolate.rs lines 581-595): if the
promise-rejection table is non-empty, remove one entry and run it through
`exception_to_err_result` (= `handle_exception` followed by
`check_last_exception`).  The `HashMap` iteration picks some entry; the
embedding keeps the table as a list and takes its head. -/
def Isolate.check_promise_exceptions (enc : JSValue → String)
    (errCreate : String → ErrBox) (st : IsolateState) :
    Except ErrBox Unit × IsolateState :=
  match st.pending_promise_exceptions with
  | [] => (Except.ok (), st)
  | (_key, handle) :: rest =>
      let st1 := { st with pending_promise_exceptions := rest }
      let st2 := (Isolate.handle_exception enc st1 handle).1
      Isolate.check_last_exception errCreate st2

/-- What the JS receive callback does when invoked once (external JS
behavior): it may throw, create unhandled promise rejections, and
re-entrantly dispatch new async / async-unref ops. -/
structure RecvEffect where
  thrown : Option JSValue
  newRejections : List (Int × JSValue)
  newOps : List PendingOp
  newUnrefOps : List PendingOp

/-- The JS side of a poll: behavior of the receive callback for the
queue-drain invocation and for the overflow invocation. -/
structure JsSide where
  onDrain : RecvEffect
  onOverflow : RecvEffect

/-- `Isolate::async_op_response` (isolate.rs lines 597-630): invoke the JS
receive callback — with no arguments the JS mirror drains the shared queue;
with an overflow record the queue is untouched.  Re-entrant JS effects are
given by `eff`; a caught exception goes through `exception_to_err_result`. -/
def Isolate.async_op_response (enc : JSValue → String)
    (errCreate : String → ErrBox) (eff : RecvEffect) (st : IsolateState)
    (maybe_buf : Option (OpId × Buf)) : Except ErrBox Unit × IsolateState :=
  let st1 :=
    match maybe_buf with
    | none => { st with shared := st.shared.reset }
    | some _ => st
  let st2 := { st1 with
    pending_promise_exceptions :=
      st1.pending_promise_exceptions ++ eff.newRejections,
    pending_ops := st1.pending_ops ++ eff.newOps,
    pending_unref_ops := st1.pending_unref_ops ++ eff.newUnrefOps,
    have_unpolled_ops := st1.have_unpolled_ops
      || !eff.newOps.isEmpty || !eff.newUnrefOps.isEmpty }
  match eff.thrown with
  | none => (Except.ok (), st2)
  | some exc =>
      let st3 := (Isolate.handle_exception enc st2 exc).1
      Isolate.check_last_exception errCreate st3

/-- Result of `FuturesUnordered::poll_next` on the modelled future set. -/
inductive PollNext where
  | readyNone
  | pending
  | readySome (opId : OpId) (buf : Buf)
deriving DecidableEq, Repr

/-- `FuturesUnordered::poll_next` on the list model: the first ready future
is yielded and removed; with none ready the set is `Pending`, and an empty
set is `Ready(None)`. -/
def pollNextOp : List PendingOp → PollNext × List PendingOp
  | [] => (PollNext.readyNone, [])
  | PendingOp.ready i b :: rest => (PollNext.readySome i b, rest)
  | PendingOp.notReady :: rest =>
      match pollNextOp rest with
      | (PollNext.readySome i b, rest1) =>
          (PollNext.readySome i b, PendingOp.notReady :: rest1)
      | (PollNext.readyNone, _) => (PollNext.pending, PendingOp.notReady :: rest)
      | (PollNext.pending, _) => (PollNext.pending, PendingOp.notReady :: rest)

/-- The op drain loop of `Isolate::poll` (isolate.rs lines 676-701), written
as structural recursion over the future-set list: repeatedly take the next
ready future and push its record onto the shared queue; on the first failed
push remember the record as the overflow response and stop; stop when no
further future is ready.  Returns (remaining set, queue, overflow response,
successful pushes in completion order).  `drainLoop_poll_next` below proves
that this equals the source's `poll_next`-driven loop. -/
def drainLoop : List PendingOp → SharedQueue →
    List PendingOp × SharedQueue × Option (OpId × Buf) × List (OpId × Buf)
  | [], q => ([], q, none, [])
  | PendingOp.notReady :: rest, q =>
      let r := drainLoop rest q
      (PendingOp.notReady :: r.1, r.2.1, r.2.2.1, r.2.2.2)
  | PendingOp.ready i b :: rest, q =>
      match SharedQueue.push q i b with
      | (true, q1) =>
          let r := drainLoop rest q1
          (r.1, r.2.1, r.2.2.1, (i, b) :: r.2.2.2)
      | (false, _) => (rest, q, some (i, b), [])

/-- The `(op_id, payload)` records of the ready futures of a set, in
completion order. -/
def readyResults : List PendingOp → List (OpId × Buf)
  | [] => []
  | PendingOp.ready i b :: rest => (i, b) :: readyResults rest
  | PendingOp.notReady :: rest => readyResults rest

/-- Push a list of records in order; `none` when some push fails. -/
def pushAll (q : SharedQueue) : List (OpId × Buf) → Option SharedQueue
  | [] => some q
  | (i, b) :: rest =>
      match SharedQueue.push q i b with
      | (true, q1) => pushAll q1 rest
      | (false, _) => none

/-- The value of `Isolate::poll` as a `Future`: ready with ok, ready with an
error, or pending. -/
inductive PollResult where
  | readyOk
  | readyErr (e : ErrBox)
  | pending
deriving DecidableEq, Repr

/-- The outcome of one `Isolate::poll` call: the `Poll` result, the state
after, the trace of receive-callback invocations (`none` = the queue-drain
call, `some r` = the overflow call), the successful queue pushes in order,
and the remembered overflow response. -/
structure PollOutcome where
  result : PollResult
  state : IsolateState
  recvCalls : List (Option (OpId × Buf))
  pushed : List (OpId × Buf)
  overflow : Option (OpId × Buf)
deriving DecidableEq, Repr

/-- Tail of `Isolate::poll` (isolate.rs lines 714-724): the second
promise-rejection check, then the readiness rule — ready-ok iff
`pending_ops` is empty. -/
def Isolate.poll_finish (enc : JSValue → String) (errCreate : String → ErrBox)
    (st : IsolateState) (calls : List (Option (OpId × Buf)))
    (pushed : List (OpId × Buf)) (ov : Option (OpId × Buf)) : PollOutcome :=
  match Isolate.check_promise_exceptions enc errCreate st with
  | (Except.error e, stE) =>
      { result := PollResult.readyErr e, state := stE, recvCalls := calls,
        pushed := pushed, overflow := ov }
  | (Except.ok _, st1) =>
      if st1.pending_ops.isEmpty then
        { result := PollResult.readyOk, state := st1, recvCalls := calls,
          pushed := pushed, overflow := ov }
      else
        { result := PollResult.pending, state := st1, recvCalls := calls,
          pushed := pushed, overflow := ov }

/-- Overflow step of `Isolate::poll` (isolate.rs lines 709-712): if an
overflow response was remembered, deliver it through one receive-callback
invocation carrying the record as its two arguments. -/
def Isolate.poll_overflow (enc : JSValue → String) (errCreate : String → ErrBox)
    (js : JsSide) (st : IsolateState) (calls : List (Option (OpId × Buf)))
    (pushed : List (OpId × Buf)) (ov : Option (OpId × Buf)) : PollOutcome :=
  match ov with
  | none => Isolate.poll_finish enc errCreate st calls pushed none
  | some r =>
      match Isolate.async_op_response enc errCreate js.onOverflow st (some r) with
      | (Except.error e, st1) =>
          { result := PollResult.readyErr e, state := st1,
            recvCalls := calls ++ [some r], pushed := pushed, overflow := some r }
      | (Except.ok _, st1) =>
          Isolate.poll_finish enc errCreate st1 (calls ++ [some r]) pushed (some r)

/-- `Isolate::poll` (isolate.rs lines 660-725): run init if needed, check the
promise-rejection table, drain `pending_ops` into the shared queue (the
`have_unpolled_ops` flag is cleared by the loop), let JS drain a non-empty
queue through a zero-argument receive-callback call, deliver an overflow
response, re-check the table and apply the readiness rule.  `pending_unref_ops`
is not touched. -/
def Isolate.poll (enc : JSValue → String) (errCreate : String → ErrBox)
    (js : JsSide) (st : IsolateState) : PollOutcome :=
  let st0 := Isolate.shared_init st
  match Isolate.check_promise_exceptions enc errCreate st0 with
  | (Except.error e, stE) =>
      { result := PollResult.readyErr e, state := stE, recvCalls := [],
        pushed := [], overflow := none }
  | (Except.ok _, st1) =>
      let st2 := { st1 with have_unpolled_ops := false }
      let r := drainLoop st2.pending_ops st2.shared
      let st3 := { st2 with pending_ops := r.1, shared := r.2.1 }
      let ov := r.2.2.1
      let pushed := r.2.2.2
      if 0 < st3.shared.size then
        match Isolate.async_op_response enc errCreate js.onDrain st3 none with
        | (Except.error e, st4) =>
            { result := PollResult.readyErr e, state := st4,
              recvCalls := [none], pushed := pushed, overflow := ov }
        | (Except.ok _, st4) =>
            Isolate.poll_overflow enc errCreate js st4 [none] pushed ov
      else
        Isolate.poll_overflow enc errCreate js st3 [] pushed ov

/-- Map an async op future (by its status at the next poll pass) to the
pending-set element produced by `fut.map_ok(move |buf| (op_id, buf))`. -/
def tagPending (opId : OpId) : Option Buf → PendingOp
  | some b => PendingOp.ready opId b
  | none => PendingOp.notReady

/-- `Isolate::dispatch_op` (isolate.rs lines 469-519): look up and invoke the
handler; with no handler throw `TypeError "Unknown op id: <id>"` into JS and
return nothing; a `Sync` op returns its payload with op id 0; async variants
are pushed onto the corresponding pending set and mark unpolled ops.
Returns (return value, state after, exception thrown into JS). -/
def Isolate.dispatch_op (registry : OpRegistry) (st : IsolateState)
    (op_id : OpId) (control_buf : Buf) (zero_copy_buf : Option Buf) :
    Option (OpId × Buf) × IsolateState × Option Thrown :=
  match registry.call op_id control_buf zero_copy_buf with
  | none =>
      (none, st,
        some (Thrown.typeError ("Unknown op id: " ++ toString op_id)))
  | some (CoreOp.sync buf) => (some (0, buf), st, none)
  | some (CoreOp.async fut) =>
      (none,
        { st with pending_ops := st.pending_ops ++ [tagPending op_id fut],
                  have_unpolled_ops := true }, none)
  | some (CoreOp.asyncUnref fut) =>
      (none,
        { st with
            pending_unref_ops := st.pending_unref_ops ++ [tagPending op_id fut],
            have_unpolled_ops := true }, none)

/-- Startup data for `Isolate::new` (`StartupData` in the source). -/
inductive StartupData where
  | script (filename source : String)
  | snapshot (blob : Blob)
  | ownedSnapshot (blob : Blob)
  | none
deriving DecidableEq, Repr

/-- `Isolate::new` (isolate.rs lines 237-338): split the startup data into a
snapshot to load and a startup script; a will-snapshot isolate asserts that
no snapshot is loaded (`none` models that panic) and owns a snapshot
creator; the fresh state has an empty queue, empty pending sets and the
latched `needs_init` flag set. -/
def Isolate.new (startup_data : StartupData) (will_snapshot : Bool) :
    Option IsolateState :=
  let startup_script : Option ScriptRec :=
    match startup_data with
    | StartupData.script f s => some { filename := f, source := s }
    | _ => Option.none
  let load_snapshot : Option Blob :=
    match startup_data with
    | StartupData.snapshot b => some b
    | StartupData.ownedSnapshot b => some b
    | _ => Option.none
  if will_snapshot ∧ load_snapshot.isSome then Option.none
  else some
    { last_exception := Option.none,
      pending_promise_exceptions := [],
      needs_init := true,
      shared := SharedQueue.new RECOMMENDED_SIZE,
      pending_ops := [],
      pending_unref_ops := [],
      have_unpolled_ops := false,
      startup_script := startup_script,
      snapshot_creator := will_snapshot,
      has_snapshotted := false,
      loaded_snapshot := load_snapshot,
      global_context := true,
      terminating := false,
      executed := [] }

/-- `Isolate::snapshot` (isolate.rs lines 638-654): assert a snapshot creator
is owned (`none` models that panic), clear the global context handle, have
the engine produce the blob (`blob` stands for the engine output), set
`has_snapshotted`, and return the blob unless an exception was stashed. -/
def Isolate.snapshot (errCreate : String → ErrBox) (blob : Blob)
    (st : IsolateState) : Option (Except ErrBox Blob × IsolateState) :=
  if st.snapshot_creator = false then Option.none
  else
    let st1 := { st with global_context := false }
    let st2 := { st1 with has_snapshotted := true }
    match Isolate.check_last_exception errCreate st2 with
    | (Except.ok _, st3) => some (Except.ok blob, st3)
    | (Except.error e, st3) => some (Except.error e, st3)

/-! Concrete fixtures used by witnesses and counterexamples. -/

/-- A concrete exception-message serializer for witnesses. -/
def enc0 : JSValue → String
  | JSValue.nullOrUndefined => "null"
  | JSValue.val s => s

/-- A concrete error-create hook for witnesses (the identity wrapping). -/
def ec0 : String → ErrBox := fun s => s

/-- A receive-callback behavior with no re-entrant effects. -/
def quietEffect : RecvEffect :=
  { thrown := none, newRejections := [], newOps := [], newUnrefOps := [] }

/-- A JS side that drains quietly and never throws or redispatches. -/
def js0 : JsSide := { onDrain := quietEffect, onOverflow := quietEffect }

/-- A small already-initialized isolate state with an empty 64-byte,
10-record queue. -/
def baseSt : IsolateState :=
  { last_exception := none,
    pending_promise_exceptions := [],
    needs_init := false,
    shared := { maxRecords := 10, capacity := 64, records := [] },
    pending_ops := [],
    pending_unref_ops := [],
    have_unpolled_ops := false,
    startup_script := none,
    snapshot_creator := false,
    has_snapshotted := false,
    loaded_snapshot := none,
    global_context := true,
    terminating := false,
    executed := [] }

/-- State with one ready never-delivered unref op (counterexample input). -/
def stUnref : IsolateState :=
  { baseSt with pending_unref_ops := [PendingOp.ready 1 [43]] }

/-- State with one ready async op (witness input). -/
def stOneReady : IsolateState :=
  { baseSt with pending_ops := [PendingOp.ready 1 [43], PendingOp.notReady] }

/-- State whose queue is too small for any record, so the first ready
completion overflows (witness input). -/
def stOverflow : IsolateState :=
  { baseSt with
      shared := { maxRecords := 10, capacity := 4, records := [] },
      pending_ops := [PendingOp.ready 1 [43]] }

/-- State with two queued promise rejections (witness input). -/
def stReject : IsolateState :=
  { baseSt with
      pending_promise_exceptions :=
        [(5, JSValue.val "boom"), (7, JSValue.val "later")] }

/-- A fresh not-yet-initialized state carrying a startup script (witness
input). -/
def stFresh : IsolateState :=
  { baseSt with
      needs_init := true,
      startup_script := some { filename := "main.js", source := "a = 1" } }

/-- State with a ready async op, a not-ready async op and a ready unref op
(witness input). -/
def stMixed : IsolateState :=
  { baseSt with
      pending_ops := [PendingOp.ready 1 [43], PendingOp.notReady],
      pending_unref_ops := [PendingOp.ready 2 [9]] }

/-- A registry holding the single sync echo op of the repository tests. -/
def regSync : OpRegistry :=
  { handlers := [("test", fun control _ =>
      if control = [42] then CoreOp.sync [43] else CoreOp.sync [])] }

/-- The empty registry. -/
def regEmpty : OpRegistry := { handlers := [] }

/-! Helper lemmas. -/

/-- `shared_init` leaves the promise-rejection table unchanged. -/
theorem shared_init_table (st : IsolateState) :
    (Isolate.shared_init st).pending_promise_exceptions =
      st.pending_promise_exceptions := by
  rcases st with ⟨le, pe, ni, sh, po, pu, hu, ss, sc, hsn, ls, gc, tm, ex⟩
  cases ni <;> cases ss <;> rfl

/-- `shared_init` leaves the pending op set unchanged. -/
theorem shared_init_pending_ops (st : IsolateState) :
    (Isolate.shared_init st).pending_ops = st.pending_ops := by
  rcases st with ⟨le, pe, ni, sh, po, pu, hu, ss, sc, hsn, ls, gc, tm, ex⟩
  cases ni <;> cases ss <;> rfl

/-- `shared_init` leaves the unref pending op set unchanged. -/
theorem shared_init_pending_unref_ops (st : IsolateState) :
    (Isolate.shared_init st).pending_unref_ops = st.pending_unref_ops := by
  rcases st with ⟨le, pe, ni, sh, po, pu, hu, ss, sc, hsn, ls, gc, tm, ex⟩
  cases ni <;> cases ss <;> rfl

/-- `shared_init` leaves the shared queue unchanged. -/
theorem shared_init_shared (st : IsolateState) :
    (Isolate.shared_init st).shared = st.shared := by
  rcases st with ⟨le, pe, ni, sh, po, pu, hu, ss, sc, hsn, ls, gc, tm, ex⟩
  cases ni <;> cases ss <;> rfl

/-- `shared_init` leaves the stashed exception unchanged. -/
theorem shared_init_last_exception (st : IsolateState) :
    (Isolate.shared_init st).last_exception = st.last_exception := by
  rcases st with ⟨le, pe, ni, sh, po, pu, hu, ss, sc, hsn, ls, gc, tm, ex⟩
  cases ni <;> cases ss <;> rfl

/-- `shared_init` leaves the termination flag unchanged. -/
theorem shared_init_terminating (st : IsolateState) :
    (Isolate.shared_init st).terminating = st.terminating := by
  rcases st with ⟨le, pe, ni, sh, po, pu, hu, ss, sc, hsn, ls, gc, tm, ex⟩
  cases ni <;> cases ss <;> rfl

/-- `handle_exception` with no terminate request in flight stashes the
serialized exception unmodified and touches nothing else. -/
theorem handle_exception_of_not_terminating (enc : JSValue → String)
    (st : IsolateState) (exc : JSValue) (h : st.terminating = false) :
    Isolate.handle_exception enc st exc =
      ({ st with last_exception := some (enc exc) }, []) := by
  simp [Isolate.handle_exception, h]

/-- `check_promise_exceptions` with an empty table is a no-op. -/
theorem check_promise_exceptions_nil (enc : JSValue → String)
    (ec : String → ErrBox) (st : IsolateState)
    (h : st.pending_promise_exceptions = []) :
    Isolate.check_promise_exceptions enc ec st = (Except.ok (), st) := by
  unfold Isolate.check_promise_exceptions
  rw [h]

/-- `check_promise_exceptions` with a non-empty table removes the first
entry, serializes it and returns the resulting host error. -/
theorem check_promise_exceptions_cons (enc : JSValue → String)
    (ec : String → ErrBox) (st : IsolateState) (k : Int) (v : JSValue)
    (rest : List (Int × JSValue))
    (hT : st.pending_promise_exceptions = (k, v) :: rest)
    (hTerm : st.terminating = false) :
    Isolate.check_promise_exceptions enc ec st =
      (Except.error (ec (enc v)),
        { st with pending_promise_exceptions := rest,
                  last_exception := none }) := by
  rcases st with ⟨le, pe, ni, sh, po, pu, hu, ss, sc, hsn, ls, gc, tm, ex⟩
  have hT2 : pe = (k, v) :: rest := hT
  have hTerm2 : tm = false := hTerm
  subst hT2
  subst hTerm2
  rfl

/-! Claim theorems. -/

/-- Claim C3: a registered op whose handler returns `Sync(payload)` makes
`dispatch_op` return that payload synchronously paired with op id 0, leaving
the state — in particular both pending sets and the shared queue —
unchanged and throwing nothing. -/
theorem dispatch_op_sync (registry : OpRegistry) (st : IsolateState)
    (op_id : OpId) (control : Buf) (zc : Option Buf) (buf : Buf)
    (h : registry.call op_id control zc = some (CoreOp.sync buf)) :
    Isolate.dispatch_op registry st op_id control zc =
      (some (0, buf), st, none) := by
  unfold Isolate.dispatch_op
  rw [h]

/-- Witness for C3: the sync echo op of the repository tests, dispatched
with control `[42]`, returns `(0, [43])` and changes nothing. -/
theorem dispatch_op_sync_witness :
    regSync.call 1 [42] none = some (CoreOp.sync [43]) ∧
    Isolate.dispatch_op regSync baseSt 1 [42] none =
      (some (0, [43]), baseSt, none) :=
  ⟨by decide, dispatch_op_sync regSync baseSt 1 [42] none [43] (by decide)⟩

/-- Claim C4: dispatching an op id with no registered handler throws a
`TypeError` with message `Unknown op id: <id>` into JS, returns nothing and
leaves the isolate state (pending sets, shared queue) unchanged. -/
theorem dispatch_op_unknown (registry : OpRegistry) (st : IsolateState)
    (op_id : OpId) (control : Buf) (zc : Option Buf)
    (h : registry.call op_id control zc = none) :
    Isolate.dispatch_op registry st op_id control zc =
      (none, st,
        some (Thrown.typeError ("Unknown op id: " ++ toString op_id))) := by
  unfold Isolate.dispatch_op
  rw [h]

/-- Witness for C4: op id 100 against an empty registry produces exactly the
message `Unknown op id: 100`. -/
theorem dispatch_op_unknown_witness :
    regEmpty.call 100 [] none = none ∧
    Isolate.dispatch_op regEmpty baseSt 100 [] none =
      (none, baseSt, some (Thrown.typeError "Unknown op id: 100")) := by
  refine ⟨by decide, ?_⟩
  rw [dispatch_op_unknown regEmpty baseSt 100 [] none (by decide)]
  decide

/-- Claim C10: `check_last_exception` consumes the stash — a stashed
serialized exception yields an error built from it and empties the stash, so
an immediately following call returns ok; an empty stash returns ok and
changes nothing. -/
theorem check_last_exception_consumes (ec : String → ErrBox)
    (st : IsolateState) :
    (∀ j, st.last_exception = some j →
      Isolate.check_last_exception ec st =
        (Except.error (ec j), { st with last_exception := none }) ∧
      Isolate.check_last_exception ec { st with last_exception := none } =
        (Except.ok (), { st with last_exception := none })) ∧
    (st.last_exception = none →
      Isolate.check_last_exception ec st = (Except.ok (), st)) := by
  constructor
  · intro j hj
    constructor
    · unfold Isolate.check_last_exception
      rw [hj]
    · rfl
  · intro h
    unfold Isolate.check_last_exception
    rw [h]

/-- Witness for C10: a stashed exception `"E"` is reported once and the
second call is ok. -/
theorem check_last_exception_consumes_witness :
    ({ baseSt with last_exception := some "E" } : IsolateState).last_exception
        = some "E" ∧
    Isolate.check_last_exception ec0 { baseSt with last_exception := some "E" } =
      (Except.error "E", baseSt) ∧
    Isolate.check_last_exception ec0 baseSt = (Except.ok (), baseSt) := by
  refine ⟨rfl, ?_, ?_⟩
  · exact ((check_last_exception_consumes ec0
      { baseSt with last_exception := some "E" }).1 "E" rfl).1
  · exact (check_last_exception_consumes ec0 baseSt).2 rfl

/-- Claim C9: `shared_init` is idempotent through the `needs_init` latch —
the first call runs the bootstrap script and any startup script and clears
the flag, a call on an initialized isolate is a no-op, and running it twice
equals running it once. -/
theorem shared_init_idempotent (st : IsolateState) :
    Isolate.shared_init (Isolate.shared_init st) = Isolate.shared_init st ∧
    (Isolate.shared_init st).needs_init = false ∧
    (st.needs_init = false → Isolate.shared_init st = st) ∧
    (st.needs_init = true →
      (Isolate.shared_init st).executed =
        st.executed ++ [shared_queue_js] ++ st.startup_script.toList ∧
      (Isolate.shared_init st).startup_script = none) := by
  rcases st with ⟨le, pe, ni, sh, po, pu, hu, ss, sc, hsn, ls, gc, tm, ex⟩
  cases ni <;> cases ss <;> simp [Isolate.shared_init]

/-- Witness for C9: a fresh isolate with a startup script initializes once
and the second call changes nothing. -/
theorem shared_init_idempotent_witness :
    (stFresh : IsolateState).needs_init = true ∧
    Isolate.shared_init (Isolate.shared_init stFresh) =
      Isolate.shared_init stFresh ∧
    (Isolate.shared_init stFresh).executed =
      [shared_queue_js, { filename := "main.js", source := "a = 1" }] := by
  refine ⟨rfl, (shared_init_idempotent _).1, ?_⟩
  have h := ((shared_init_idempotent stFresh).2.2.2 rfl).1
  rw [h]
  decide

/-- Claim C7: `handle_exception` with a terminate request in flight cancels
termination, substitutes the synthetic `execution terminated` error for a
null-or-undefined exception, stashes the serialized message as
`last_exception` and re-enables termination; without a terminate request the
exception is serialized and stashed unmodified. -/
theorem handle_exception_spec (enc : JSValue → String) (st : IsolateState)
    (exc : JSValue) :
    (st.terminating = true →
      Isolate.handle_exception enc st exc =
        ({ st with
            last_exception :=
              some (enc (if exc = JSValue.nullOrUndefined
                then JSValue.val "execution terminated" else exc)) },
         [TermAction.cancelTerminate, TermAction.reenableTerminate])) ∧
    (st.terminating = false →
      Isolate.handle_exception enc st exc =
        ({ st with last_exception := some (enc exc) }, [])) := by
  rcases st with ⟨le, pe, ni, sh, po, pu, hu, ss, sc, hsn, ls, gc, tm, ex⟩
  constructor <;> intro h <;> cases tm <;> simp_all [Isolate.handle_exception]

/-- Witness for C7: a null exception under an in-flight termination is
replaced by the synthetic error, and the termination control is cancelled
and re-enabled. -/
theorem handle_exception_spec_witness :
    ({ baseSt with terminating := true } : IsolateState).terminating = true ∧
    Isolate.handle_exception enc0 { baseSt with terminating := true }
        JSValue.nullOrUndefined =
      ({ baseSt with
          terminating := true,
          last_exception := some "execution terminated" },
       [TermAction.cancelTerminate, TermAction.reenableTerminate]) := by
  refine ⟨rfl, ?_⟩
  rw [(handle_exception_spec enc0 { baseSt with terminating := true }
      JSValue.nullOrUndefined).1 rfl]
  decide

/-- Claim C8: a will-snapshot isolate refuses to load a pre-existing
snapshot (constructing with both panics, and any successfully constructed
will-snapshot isolate holds no loaded snapshot); `snapshot()` clears the
global context handle, sets `has_snapshotted` and returns the engine blob. -/
theorem will_snapshot_rules (b : Blob) (sd : StartupData)
    (ec : String → ErrBox) (blob : Blob) (st : IsolateState) :
    Isolate.new (StartupData.snapshot b) true = none ∧
    (∀ st0, Isolate.new sd true = some st0 → st0.loaded_snapshot = none) ∧
    (st.snapshot_creator = true → st.last_exception = none →
      Isolate.snapshot ec blob st =
        some (Except.ok blob,
          { st with global_context := false, has_snapshotted := true })) := by
  refine ⟨rfl, ?_, ?_⟩
  · intro st0 h
    cases sd <;> simp_all [Isolate.new] <;> exact h ▸ rfl
  · intro h1 h2
    rcases st with ⟨le, pe, ni, sh, po, pu, hu, ss, sc, hsn, ls, gc, tm, ex⟩
    have h1b : sc = true := h1
    have h2b : le = none := h2
    subst h1b
    subst h2b
    rfl

/-- Witness for C8: snapshotting a will-snapshot state returns the blob and
sets the flags, and constructing with both a snapshot and will-snapshot is
refused. -/
theorem will_snapshot_rules_witness :
    ({ baseSt with snapshot_creator := true } : IsolateState).snapshot_creator
        = true ∧
    ({ baseSt with snapshot_creator := true } : IsolateState).last_exception
        = none ∧
    Isolate.snapshot ec0 [1, 2] { baseSt with snapshot_creator := true } =
      some (Except.ok [1, 2],
        { baseSt with
            snapshot_creator := true,
            global_context := false,
            has_snapshotted := true }) ∧
    Isolate.new (StartupData.snapshot [9]) true = none := by
  refine ⟨rfl, rfl, ?_, ?_⟩
  · exact (will_snapshot_rules [9] StartupData.none ec0 [1, 2]
      { baseSt with snapshot_creator := true }).2.2 rfl rfl
  · exact (will_snapshot_rules [9] StartupData.none ec0 [1, 2] baseSt).1

/-- Claim C6: when the promise-rejection table is non-empty at the start of
a poll, exactly one entry is removed, converted to an error through the
serializer and error hook, and the poll returns that error; the remaining
entries stay in the table. -/
theorem poll_drains_one_rejection (enc : JSValue → String)
    (ec : String → ErrBox) (js : JsSide) (st : IsolateState) (k : Int)
    (v : JSValue) (rest : List (Int × JSValue))
    (hT : st.pending_promise_exceptions = (k, v) :: rest)
    (hTerm : st.terminating = false) :
    (Isolate.poll enc ec js st).result = PollResult.readyErr (ec (enc v)) ∧
    (Isolate.poll enc ec js st).state.pending_promise_exceptions = rest := by
  simp only [Isolate.poll]
  rw [check_promise_exceptions_cons enc ec (Isolate.shared_init st) k v rest
    (by rw [shared_init_table]; exact hT)
    (by rw [shared_init_terminating]; exact hTerm)]
  exact ⟨rfl, rfl⟩

/-- Witness for C6: with two queued rejections the poll reports the first
and leaves the second queued. -/
theorem poll_drains_one_rejection_witness :
    stReject.pending_promise_exceptions =
      [(5, JSValue.val "boom"), (7, JSValue.val "later")] ∧
    stReject.terminating = false ∧
    (Isolate.poll enc0 ec0 js0 stReject).result = PollResult.readyErr "boom" ∧
    (Isolate.poll enc0 ec0 js0 stReject).state.pending_promise_exceptions =
      [(7, JSValue.val "later")] := by
  refine ⟨rfl, rfl, ?_, ?_⟩
  · exact (poll_drains_one_rejection enc0 ec0 js0 stReject 5
      (JSValue.val "boom") [(7, JSValue.val "later")] rfl rfl).1
  · exact (poll_drains_one_rejection enc0 ec0 js0 stReject 5
      (JSValue.val "boom") [(7, JSValue.val "later")] rfl rfl).2

/-- `poll_next` answers `Ready(None)` only on the empty set. -/
theorem pollNextOp_readyNone (ops ops1 : List PendingOp)
    (h : pollNextOp ops = (PollNext.readyNone, ops1)) :
    ops = [] ∧ ops1 = [] := by
  cases ops with
  | nil => simp [pollNextOp] at h; simp [h]
  | cons hd rest =>
    cases hd with
    | ready i b => simp [pollNextOp] at h
    | notReady =>
      rcases hp : pollNextOp rest with ⟨c, ops2⟩
      cases c <;> simp [pollNextOp, hp] at h

/-- `poll_next` answering `Pending` leaves the set unchanged. -/
theorem pollNextOp_pending (ops ops1 : List PendingOp)
    (h : pollNextOp ops = (PollNext.pending, ops1)) : ops1 = ops := by
  cases ops with
  | nil => simp [pollNextOp] at h
  | cons hd rest =>
    cases hd with
    | ready i b => simp [pollNextOp] at h
    | notReady =>
      rcases hp : pollNextOp rest with ⟨c, ops2⟩
      cases c <;> simp [pollNextOp, hp] at h <;> simp [h]

/-- Loop fidelity: `drainLoop` satisfies exactly the fixpoint equation of the
source's drain loop — poll the future set; on `Ready(None)` or `Pending`
stop; on a ready record push it, continuing on success and stopping with the
overflow response on failure. -/
theorem drainLoop_poll_next (ops : List PendingOp) : ∀ q : SharedQueue,
    drainLoop ops q =
      match pollNextOp ops with
      | (PollNext.readyNone, ops1) => (ops1, q, none, [])
      | (PollNext.pending, ops1) => (ops1, q, none, [])
      | (PollNext.readySome i b, ops1) =>
          match SharedQueue.push q i b with
          | (true, q1) =>
              let r := drainLoop ops1 q1
              (r.1, r.2.1, r.2.2.1, (i, b) :: r.2.2.2)
          | (false, _) => (ops1, q, some (i, b), []) := by
  induction ops with
  | nil => intro q; rfl
  | cons hd rest ih =>
    intro q
    cases hd with
    | ready i b => rfl
    | notReady =>
      rcases hp : pollNextOp rest with ⟨c, ops1⟩
      cases c with
      | readyNone =>
        obtain ⟨h1, h2⟩ := pollNextOp_readyNone rest ops1 hp
        subst h1
        rfl
      | pending =>
        have h1 := pollNextOp_pending rest ops1 hp
        subst h1
        simp only [drainLoop, pollNextOp, hp]
        rw [ih q]
        simp [hp]
      | readySome i b =>
        simp only [drainLoop, pollNextOp, hp]
        rw [ih q]
        simp only [hp]
        rcases hpush : SharedQueue.push q i b with ⟨succ, q1⟩
        cases succ <;> simp [hpush, drainLoop]

/-- Drain characterization: the successful pushes followed by the overflow
record form a prefix of the ready completions in completion order; with no
overflow every ready completion was pushed; the pushes all succeed in order
ending at the drain's final queue, on which the overflow record's push
fails. -/
theorem drainLoop_spec (ops : List PendingOp) : ∀ q : SharedQueue,
    ((drainLoop ops q).2.2.2 ++ (drainLoop ops q).2.2.1.toList =
      (readyResults ops).take
        ((drainLoop ops q).2.2.2.length +
          (drainLoop ops q).2.2.1.toList.length)) ∧
    ((drainLoop ops q).2.2.1 = none →
      (drainLoop ops q).2.2.2 = readyResults ops) ∧
    pushAll q (drainLoop ops q).2.2.2 = some (drainLoop ops q).2.1 ∧
    (∀ i b, (drainLoop ops q).2.2.1 = some (i, b) →
      ((drainLoop ops q).2.1.push i b).1 = false) := by
  induction ops with
  | nil => intro q; simp [drainLoop, readyResults, pushAll]
  | cons hd rest ih =>
    intro q
    cases hd with
    | notReady =>
      simpa only [drainLoop, readyResults] using ih q
    | ready i b =>
      rcases hpush : SharedQueue.push q i b with ⟨succ, q1⟩
      cases succ with
      | true =>
        obtain ⟨A, B, C, D⟩ := ih q1
        simp only [drainLoop, hpush, readyResults]
        refine ⟨?_, ?_, ?_, D⟩
        · simpa [Nat.succ_add] using A
        · intro h
          rw [B h]
        · simp [pushAll, hpush]
          exact C
      | false =>
        simp only [drainLoop, hpush, readyResults]
        refine ⟨by simp, by simp, by simp [pushAll], ?_⟩
        intro i2 b2 h
        obtain ⟨rfl, rfl⟩ : i = i2 ∧ b = b2 := by
          simpa [Prod.ext_iff] using h
        simp [hpush]

/-- Poll plumbing under no-error conditions: with an empty rejection table
and a receive callback that neither throws nor creates rejections, the poll
pushes exactly what the drain loop pushes, remembers the drain loop's
overflow record, makes the queue-drain call iff the queue is non-empty and
then the overflow call, accumulates re-entrant dispatches onto the pending
sets, and applies the readiness rule to the final pending set. -/
theorem poll_noerr (enc : JSValue → String) (ec : String → ErrBox)
    (js : JsSide) (st : IsolateState)
    (h1 : st.pending_promise_exceptions = [])
    (h3 : js.onDrain.thrown = none) (h4 : js.onDrain.newRejections = [])
    (h5 : js.onOverflow.thrown = none) (h6 : js.onOverflow.newRejections = []) :
    (Isolate.poll enc ec js st).pushed =
      (drainLoop st.pending_ops st.shared).2.2.2 ∧
    (Isolate.poll enc ec js st).overflow =
      (drainLoop st.pending_ops st.shared).2.2.1 ∧
    (Isolate.poll enc ec js st).recvCalls =
      (if 0 < (drainLoop st.pending_ops st.shared).2.1.size then [none] else [])
        ++ ((drainLoop st.pending_ops st.shared).2.2.1.map some).toList ∧
    (Isolate.poll enc ec js st).state.pending_ops =
      (drainLoop st.pending_ops st.shared).1
        ++ (if 0 < (drainLoop st.pending_ops st.shared).2.1.size
            then js.onDrain.newOps else [])
        ++ (if (drainLoop st.pending_ops st.shared).2.2.1.isSome
            then js.onOverflow.newOps else []) ∧
    (Isolate.poll enc ec js st).state.pending_unref_ops =
      st.pending_unref_ops
        ++ (if 0 < (drainLoop st.pending_ops st.shared).2.1.size
            then js.onDrain.newUnrefOps else [])
        ++ (if (drainLoop st.pending_ops st.shared).2.2.1.isSome
            then js.onOverflow.newUnrefOps else []) ∧
    (Isolate.poll enc ec js st).result =
      (if (Isolate.poll enc ec js st).state.pending_ops.isEmpty
        then PollResult.readyOk else PollResult.pending) := by
  rcases js with ⟨⟨dthrown, drej, dops, duops⟩, ⟨othrown, orej, oops, ouops⟩⟩
  obtain rfl : dthrown = none := h3
  obtain rfl : drej = [] := h4
  obtain rfl : othrown = none := h5
  obtain rfl : orej = [] := h6
  rcases st with ⟨le, pe, ni, sh, po, pu, hu, ss, sc, hsn, ls, gc, tm, ex⟩
  obtain rfl : pe = [] := h1
  rcases hdr : drainLoop po sh with ⟨ops2, q2, ov, pushed⟩
  cases ni <;> cases ss <;> by_cases hq : 0 < q2.size <;> cases ov <;>
    simp [Isolate.poll, Isolate.shared_init, Isolate.check_promise_exceptions,
      Isolate.async_op_response, Isolate.poll_overflow, Isolate.poll_finish,
      hdr, hq] <;>
    split <;> simp_all <;> split <;> simp_all

/-- Claim C2 (idle rule): in a poll where no promise-rejection entry and no
stashed exception produces an error, the poll completes ready-ok iff the
pending set is empty when the readiness rule runs, and the contents of
`pending_unref_ops` never affect the result. -/
theorem poll_idle_rule (enc : JSValue → String) (ec : String → ErrBox)
    (js : JsSide) (st : IsolateState)
    (h1 : st.pending_promise_exceptions = [])
    (h2 : st.last_exception = none)
    (h3 : js.onDrain.thrown = none) (h4 : js.onDrain.newRejections = [])
    (h5 : js.onOverflow.thrown = none) (h6 : js.onOverflow.newRejections = []) :
    ((Isolate.poll enc ec js st).result = PollResult.readyOk ↔
      (Isolate.poll enc ec js st).state.pending_ops = []) ∧
    ∀ u, (Isolate.poll enc ec js
        { st with pending_unref_ops := u }).result =
      (Isolate.poll enc ec js st).result := by
  obtain ⟨-, -, -, P4, -, P6⟩ := poll_noerr enc ec js st h1 h3 h4 h5 h6
  constructor
  · rw [P6]
    by_cases he : (Isolate.poll enc ec js st).state.pending_ops = [] <;>
      simp [he]
  · intro u
    obtain ⟨-, -, -, P4u, -, P6u⟩ :=
      poll_noerr enc ec js { st with pending_unref_ops := u } h1 h3 h4 h5 h6
    rw [P6u, P6, P4u, P4]

/-- Witness for C2: one ready async op is delivered and the isolate is then
ready-ok, with the unref set irrelevant. -/
theorem poll_idle_rule_witness :
    stOneReady.pending_promise_exceptions = [] ∧
    stOneReady.last_exception = none ∧
    js0.onDrain.thrown = none ∧ js0.onDrain.newRejections = [] ∧
    js0.onOverflow.thrown = none ∧ js0.onOverflow.newRejections = [] ∧
    ((Isolate.poll enc0 ec0 js0 stOneReady).result = PollResult.readyOk ↔
      (Isolate.poll enc0 ec0 js0 stOneReady).state.pending_ops = []) ∧
    (Isolate.poll enc0 ec0 js0
        { stOneReady with pending_unref_ops := [PendingOp.notReady] }).result =
      (Isolate.poll enc0 ec0 js0 stOneReady).result := by
  refine ⟨rfl, rfl, rfl, rfl, rfl, rfl, ?_, ?_⟩
  · exact (poll_idle_rule enc0 ec0 js0 stOneReady rfl rfl rfl rfl rfl rfl).1
  · exact (poll_idle_rule enc0 ec0 js0 stOneReady rfl rfl rfl rfl rfl rfl).2
      [PendingOp.notReady]

/-- Counterexample to C1 as stated: a poll over a state whose only ready
future sits in `pending_unref_ops` pushes nothing and attempts nothing — the
ready unref future yields no `(op_id, payload)` record and is still there,
still ready, after the poll. -/
theorem poll_unref_not_drained_counterexample :
    PendingOp.ready 1 [43] ∈ stUnref.pending_unref_ops ∧
    ¬ ((1, [43]) ∈ (Isolate.poll enc0 ec0 js0 stUnref).pushed ++
        (Isolate.poll enc0 ec0 js0 stUnref).overflow.toList) ∧
    (Isolate.poll enc0 ec0 js0 stUnref).state.pending_unref_ops =
      [PendingOp.ready 1 [43]] := by decide

/-- Claim C1 as amended: in every error-free poll step the `pending` set is
drained without blocking — its ready futures yield `(op_id, payload)`
records which are pushed to the shared queue in completion order until the
first failed push, whose record becomes the overflow response — while
`pending_unref_ops` is never polled and contributes no records. -/
theorem poll_drains_pending_only (enc : JSValue → String) (ec : String → ErrBox)
    (js : JsSide) (st : IsolateState)
    (h1 : st.pending_promise_exceptions = [])
    (h3 : js.onDrain.thrown = none) (h4 : js.onDrain.newRejections = [])
    (h5 : js.onOverflow.thrown = none) (h6 : js.onOverflow.newRejections = [])
    (h7 : js.onDrain.newUnrefOps = []) (h8 : js.onOverflow.newUnrefOps = []) :
    ((Isolate.poll enc ec js st).pushed ++
        (Isolate.poll enc ec js st).overflow.toList =
      (readyResults st.pending_ops).take
        ((Isolate.poll enc ec js st).pushed.length +
          (Isolate.poll enc ec js st).overflow.toList.length)) ∧
    ((Isolate.poll enc ec js st).overflow = none →
      (Isolate.poll enc ec js st).pushed = readyResults st.pending_ops) ∧
    (∃ q2, pushAll st.shared (Isolate.poll enc ec js st).pushed = some q2 ∧
      ∀ i b, (Isolate.poll enc ec js st).overflow = some (i, b) →
        (q2.push i b).1 = false) ∧
    (Isolate.poll enc ec js st).state.pending_unref_ops =
      st.pending_unref_ops := by
  obtain ⟨P1, P2, -, -, P5, -⟩ := poll_noerr enc ec js st h1 h3 h4 h5 h6
  obtain ⟨A, B, C, D⟩ := drainLoop_spec st.pending_ops st.shared
  refine ⟨?_, ?_, ⟨(drainLoop st.pending_ops st.shared).2.1, ?_, ?_⟩, ?_⟩
  · rw [P1, P2]; exact A
  · intro h
    rw [P1]
    exact B (by rw [← P2]; exact h)
  · rw [P1]; exact C
  · intro i b h
    exact D i b (by rw [← P2]; exact h)
  · rw [P5, h7, h8]
    simp

/-- Witness for C1 (amended): the ready `pending` future is pushed while the
ready unref future stays untouched. -/
theorem poll_drains_pending_only_witness :
    readyResults stMixed.pending_ops = [(1, [43])] ∧
    (Isolate.poll enc0 ec0 js0 stMixed).overflow = none ∧
    (Isolate.poll enc0 ec0 js0 stMixed).pushed =
      readyResults stMixed.pending_ops ∧
    (Isolate.poll enc0 ec0 js0 stMixed).state.pending_unref_ops =
      [PendingOp.ready 2 [9]] := by
  refine ⟨by decide, by decide, ?_, ?_⟩
  · exact (poll_drains_pending_only enc0 ec0 js0 stMixed
      rfl rfl rfl rfl rfl rfl rfl).2.1 (by decide)
  · exact (poll_drains_pending_only enc0 ec0 js0 stMixed
      rfl rfl rfl rfl rfl rfl rfl).2.2.2

/-- Claim C5: in an error-free poll pass whose drain ends in a failed push,
ready completions were pushed in completion order up to that first failure,
the failing record is the overflow response, and after the queue-drain
call the receive callback is invoked exactly once with that record. -/
theorem poll_overflow_once (enc : JSValue → String) (ec : String → ErrBox)
    (js : JsSide) (st : IsolateState) (i : OpId) (b : Buf)
    (h1 : st.pending_promise_exceptions = [])
    (h3 : js.onDrain.thrown = none) (h4 : js.onDrain.newRejections = [])
    (h5 : js.onOverflow.thrown = none) (h6 : js.onOverflow.newRejections = [])
    (hov : (Isolate.poll enc ec js st).overflow = some (i, b)) :
    (∃ pre, (pre = [] ∨ pre = [none]) ∧
      (Isolate.poll enc ec js st).recvCalls = pre ++ [some (i, b)]) ∧
    (Isolate.poll enc ec js st).recvCalls.count (some (i, b)) = 1 ∧
    ((Isolate.poll enc ec js st).pushed ++ [(i, b)] =
      (readyResults st.pending_ops).take
        ((Isolate.poll enc ec js st).pushed.length + 1)) ∧
    (∃ q2, pushAll st.shared (Isolate.poll enc ec js st).pushed = some q2 ∧
      (q2.push i b).1 = false) := by
  obtain ⟨P1, P2, P3, -, -, -⟩ := poll_noerr enc ec js st h1 h3 h4 h5 h6
  obtain ⟨A, B, C, D⟩ := drainLoop_spec st.pending_ops st.shared
  have hov2 : (drainLoop st.pending_ops st.shared).2.2.1 = some (i, b) := by
    rw [← P2]; exact hov
  have hcalls : (Isolate.poll enc ec js st).recvCalls =
      (if 0 < (drainLoop st.pending_ops st.shared).2.1.size
        then [none] else []) ++ [some (i, b)] := by
    rw [P3, hov2]
    rfl
  refine ⟨?_, ?_, ?_, ⟨(drainLoop st.pending_ops st.shared).2.1, ?_, ?_⟩⟩
  · refine ⟨if 0 < (drainLoop st.pending_ops st.shared).2.1.size
      then [none] else [], ?_, hcalls⟩
    by_cases hq : 0 < (drainLoop st.pending_ops st.shared).2.1.size <;>
      simp [hq]
  · rw [hcalls]
    by_cases hq : 0 < (drainLoop st.pending_ops st.shared).2.1.size <;>
      simp [hq, List.count_append]
  · rw [P1]
    have A2 := A
    rw [hov2] at A2
    simpa using A2
  · rw [P1]; exact C
  · exact D i b hov2

/-- Witness for C5: the first completion overflows a 4-byte queue; the
receive callback is called once with the record `(1, [43])`. -/
theorem poll_overflow_once_witness :
    (Isolate.poll enc0 ec0 js0 stOverflow).overflow = some (1, [43]) ∧
    (Isolate.poll enc0 ec0 js0 stOverflow).recvCalls = [some (1, [43])] ∧
    (Isolate.poll enc0 ec0 js0 stOverflow).recvCalls.count (some (1, [43])) = 1 := by
  refine ⟨by decide, by decide, ?_⟩
  exact (poll_overflow_once enc0 ec0 js0 stOverflow 1 [43]
    rfl rfl rfl rfl rfl (by decide)).2.1
